import Mathlib

/-!
Shallow embedding of the notes web application (mhmdcs/notes-web-app):
backend controllers (`src/backend/src/controllers/users.ts`,
`src/backend/src/controllers/notes.ts`), the auth guard middleware, the
error-handling middleware of `src/backend/src/app.ts`, and the client
fetch wrapper of `src/frontend/src/network/notes_api.ts`.

Databases are modelled as lists of documents with a fresh-id counter;
mongoose library calls (`create`, `findOne`, `findById`, `save`,
`isValidObjectId`, schema timestamps) are modelled by their observable
behaviour on that state.  The bcrypt library is kept abstract: `signUp`
takes the hash function as a parameter and `login` takes the comparison
function as a parameter.  Express request handling is modelled as pure
functions from (database state, session, request body) to an `Outcome`
(either a success status with a response body, or a thrown error that the
error middleware turns into a response) together with the new state.
-/

/-- A value thrown by a handler and forwarded (via `next(error)` or a
synchronous `throw`) to the error middleware of `app.ts`.  `http` models
an `HttpError` produced by `createHttpError(status, message)` (recognised
by `isHttpError`); `other` models any other thrown value. -/
inductive ThrownError where
  | http (status : Nat) (message : String)
  | other (description : String)
deriving DecidableEq

/-- The JSON shape of every error response body: `{ error: string }`
(`app.ts` line 66, `response.status(errorStatus).json({ error: errorMessage })`). -/
structure ErrorBody where
  error : String
deriving DecidableEq

/-- The error middleware of `app.ts` (lines 55-67): an `HttpError` has its
status and message passed through; anything else becomes status 500 with
the fixed message `"an unknown error occurred"`. -/
def errorHandler : ThrownError → Nat × ErrorBody
  | .http s m => (s, ⟨m⟩)
  | .other _ => (500, ⟨"an unknown error occurred"⟩)

/-- The outcome of running a request handler: either the handler sent a
response itself (`response.status(s).json(body)`), or it forwarded an
error to the error middleware. -/
inductive Outcome (α : Type) where
  | success (status : Nat) (body : α)
  | error (e : ThrownError)
deriving DecidableEq

/-- The response the client finally sees: the status code together with
either the handler's JSON body or the error middleware's `{error: ...}`
body. -/
def render {α : Type} (o : Outcome α) : Nat × (α ⊕ ErrorBody) :=
  match o with
  | .success s b => (s, Sum.inl b)
  | .error e => ((errorHandler e).1, Sum.inr (errorHandler e).2)

/-- Status code of the rendered response. -/
def statusOf {α : Type} (o : Outcome α) : Nat := (render o).1

/-- JavaScript truthiness test used by the controllers' validation
(`if (!username)`, `if (!title)`, ...) on an optional string field:
falsy iff the field is absent (`undefined`) or the empty string. -/
def falsy : Option String → Bool
  | none => true
  | some s => s == ""

/-! ## Users: data model and controllers (`controllers/users.ts`) -/

/-- A persisted User document (`models/user.ts`): username, email and
(hashed) password, all required; `email` and `password` carry
`select: false` in the schema, which affects queries but not documents
returned by `create`. -/
structure StoredUser where
  id : Nat
  username : String
  email : String
  password : String
deriving DecidableEq

/-- The JSON view of a user sent in a response body.  `email` and
`password` are `Option`s because the mongoose projection may exclude them
(`select: false`): `none` means the field is absent from the JSON. -/
structure UserJson where
  id : Nat
  username : String
  email : Option String
  password : Option String
deriving DecidableEq

/-- The users collection together with the next fresh document id. -/
structure UserDb where
  users : List StoredUser
  nextId : Nat
deriving DecidableEq

/-- `UserModel.create` returns the full document, every field included:
`select: false` only applies to find queries, so the created user's JSON
carries both email and hashed password. -/
def createdUserJson (u : StoredUser) : UserJson :=
  { id := u.id, username := u.username, email := some u.email, password := some u.password }

/-- The JSON view produced by `findOne(...).select("+password +email")`
in `login`: all fields explicitly included. -/
def fullUserJson (u : StoredUser) : UserJson :=
  { id := u.id, username := u.username, email := some u.email, password := some u.password }

/-- Request body of `POST /api/users/signup` (`CreateUserBody`): every
field may be missing. -/
structure CreateUserBody where
  username : Option String
  email : Option String
  password : Option String
deriving DecidableEq

/-- Request body of `POST /api/users/login` (`LoginBody`). -/
structure LoginBody where
  username : Option String
  password : Option String
deriving DecidableEq

/-- The `signUp` handler (`controllers/users.ts` lines 29-76), with the
bcrypt hash function passed in as the parameter `hash`.  The session is
the optional `request.session.userId`.  Returns the outcome, the new
users database and the new session:
missing field → 400; existing username → 409; existing email → 409;
otherwise persist the new user (hashed password), set
`request.session.userId` and answer 201 with the created document. -/
def signUp (hash : String → String) (db : UserDb) (sess : Option Nat)
    (body : CreateUserBody) : Outcome UserJson × UserDb × Option Nat :=
  if falsy body.username || falsy body.email || falsy body.password then
    (.error (.http 400 "missing user data"), db, sess)
  else if (db.users.find? (fun u => u.username == body.username.getD "")).isSome then
    (.error (.http 409 "username already exists. Please choose a different one or login instead."), db, sess)
  else if (db.users.find? (fun u => u.email == body.email.getD "")).isSome then
    (.error (.http 409 "email already exists. Please choose a different one or login instead"), db, sess)
  else
    let hashedPassword := hash (body.password.getD "")
    let newUser : StoredUser :=
      { id := db.nextId, username := body.username.getD "",
        email := body.email.getD "", password := hashedPassword }
    (.success 201 (createdUserJson newUser),
     { users := db.users ++ [newUser], nextId := db.nextId + 1 },
     some newUser.id)

/-- The `login` handler (`controllers/users.ts` lines 95-128), with
`bcrypt.compare` passed in as the parameter `compare` (first argument the
raw password, second the stored hash).  `login` never modifies the users
database; it returns the outcome and the new session:
missing field → 400 "Missing parameters"; unknown username → 401
"Invalid credentials"; password mismatch → 401 "Invalid credentials";
match → set the session and answer 201 with the user (password and email
included via `.select("+password +email")`). -/
def login (compare : String → String → Bool) (db : UserDb) (sess : Option Nat)
    (body : LoginBody) : Outcome UserJson × Option Nat :=
  if falsy body.username || falsy body.password then
    (.error (.http 400 "Missing parameters"), sess)
  else
    match db.users.find? (fun u => u.username == body.username.getD "") with
    | none => (.error (.http 401 "Invalid credentials"), sess)
    | some user =>
      if compare (body.password.getD "") user.password then
        (.success 201 (fullUserJson user), some user.id)
      else
        (.error (.http 401 "Invalid credentials"), sess)

/-- The password field of a response body: `some h` when the outcome is a
success whose user JSON carries a password field, `none` otherwise. -/
def responsePassword : Outcome UserJson → Option String
  | .success _ j => j.password
  | .error _ => none

/-! ## Notes: data model and controllers (`controllers/notes.ts`) -/

/-- The hexadecimal digit character for a value below 16 (lower case, as
in a mongodb ObjectId's string form). -/
def hexDigit (n : Nat) : Char :=
  if n < 10 then Char.ofNat (48 + n) else Char.ofNat (87 + n)

/-- Whether a character is a hexadecimal digit (the character class
accepted in an ObjectId hex string). -/
def isHexChar (c : Char) : Bool :=
  (48 ≤ c.toNat && c.toNat ≤ 57) || (97 ≤ c.toNat && c.toNat ≤ 102)
    || (65 ≤ c.toNat && c.toNat ≤ 70)

/-- `mongoose.isValidObjectId`, modelling the library's observable
behaviour on strings: true exactly for a 24-character hexadecimal string
or any 12-character string (a 12-byte buffer-like value). -/
def isValidObjectId (s : String) : Bool :=
  (s.data.length == 24 && s.data.all isHexChar) || s.data.length == 12

/-- The 24-character hexadecimal string form of the `n`-th generated
ObjectId (the document store renders ids as fixed-width hex strings). -/
def natToHex24 (n : Nat) : String :=
  ⟨(List.range 24).map (fun i => hexDigit (n / 16 ^ (23 - i) % 16))⟩

/-- A persisted Note document (`models/notes.ts`): required `title`,
optional `text`, and the `createdAt`/`updatedAt` fields added by the
schema's `timestamps: true` option. -/
structure StoredNote where
  id : String
  title : String
  text : Option String
  createdAt : Nat
  updatedAt : Nat
deriving DecidableEq

/-- The notes collection together with the next fresh ObjectId counter. -/
structure NoteDb where
  notes : List StoredNote
  nextId : Nat
deriving DecidableEq

/-- Request body of `POST /api/notes/` (`CreateNoteBody`) and of
`PATCH /api/notes/:noteId` (`UpdateNoteBody`): optional `title` and
`text`. -/
structure CreateNoteBody where
  title : Option String
  text : Option String
deriving DecidableEq

/-- The `createNote` handler (`controllers/notes.ts` lines 50-74).  `now`
is the server clock at the request; `timestamps: true` sets both
`createdAt` and `updatedAt` to it on `create`:
falsy title → 400 "Note must have a title"; otherwise persist the note
with a fresh id and answer 201 with the created document. -/
def createNote (db : NoteDb) (now : Nat) (body : CreateNoteBody) :
    Outcome StoredNote × NoteDb :=
  if falsy body.title then
    (.error (.http 400 "Note must have a title"), db)
  else
    let newNote : StoredNote :=
      { id := natToHex24 db.nextId, title := body.title.getD "",
        text := body.text, createdAt := now, updatedAt := now }
    (.success 201 newNote, { notes := db.notes ++ [newNote], nextId := db.nextId + 1 })

/-- The `getNote` handler (`controllers/notes.ts` lines 21-39):
malformed id → 400 "invalid noteId"; id not in the store → 404
"Note not found"; otherwise 200 with the note. -/
def getNote (db : NoteDb) (noteId : String) : Outcome StoredNote :=
  if !isValidObjectId noteId then
    .error (.http 400 "invalid noteId")
  else
    match db.notes.find? (fun n => n.id == noteId) with
    | none => .error (.http 404 "Note not found")
    | some note => .success 200 note

/-- The `updateNote` handler (`controllers/notes.ts` lines 89-121).
Malformed id → 400; falsy title → 400; id not found → 404; otherwise the
found document gets `note.title = updatedTitle; note.text = updatedText`
(the body's `text`, even when absent) and is saved, which sets
`updatedAt` to the clock `now`; the updated document is answered
with 200. -/
def updateNote (db : NoteDb) (now : Nat) (noteId : String) (body : CreateNoteBody) :
    Outcome StoredNote × NoteDb :=
  if !isValidObjectId noteId then
    (.error (.http 400 "invalid noteId"), db)
  else if falsy body.title then
    (.error (.http 400 "Note must have a title"), db)
  else
    match db.notes.find? (fun n => n.id == noteId) with
    | none => (.error (.http 404 "Note not found"), db)
    | some note =>
      let updated : StoredNote :=
        { note with title := body.title.getD "", text := body.text, updatedAt := now }
      (.success 200 updated,
       { db with notes := db.notes.map (fun m => if m.id == noteId then updated else m) })

/-! ## Auth guard and the `/api/notes` pipeline (`middlewares/auth.ts`, `app.ts`) -/

/-- The `requiresAuth` middleware: if `request.session.userId` is set,
call `next()`; otherwise throw `createHttpError(401, "User not
authenticated")`.  (An ObjectId is never a falsy value, so the JS
truthiness test on `userId` is exactly presence.) -/
def requiresAuth (sessionUserId : Option Nat) : Except ThrownError Unit :=
  if sessionUserId.isSome then .ok () else .error (.http 401 "User not authenticated")

/-- The `/api/notes` pipeline wired in `app.ts` line 39
(`app.use("/api/notes", requiresAuth, notesRoutes)`): the guard runs
first; a thrown error goes to the error middleware and the routed
handler never runs; otherwise the handler runs on the untouched request
and state. -/
def notesPipeline {α : Type} (sessionUserId : Option Nat)
    (handler : NoteDb → Outcome α × NoteDb) (db : NoteDb) :
    (Nat × (α ⊕ ErrorBody)) × NoteDb :=
  match requiresAuth sessionUserId with
  | .error e => (render (Outcome.error e : Outcome α), db)
  | .ok _ =>
    let (o, db2) := handler db
    (render o, db2)

/-! ## Client fetch wrapper (`frontend/src/network/notes_api.ts`) -/

/-- A server response as the browser `fetch` delivers it: the status code
and the `error` field of the parsed JSON body (what `errorBody.error`
reads in `fetchData`). -/
structure FetchResponse where
  status : Nat
  errorField : String
deriving DecidableEq

/-- `Response.ok` of the platform fetch API: status in the range 200-299. -/
def responseOk (r : FetchResponse) : Bool :=
  200 ≤ r.status && r.status < 300

/-- The `fetchData` wrapper (`notes_api.ts` lines 7-16): return the
response when `response.ok`, otherwise parse the JSON error body and
throw `Error(errorBody.error)`.  All client API functions except
`removeNote` (`getLoggedInUser`, `signup`, `login`, `logout`,
`fetchNotes`, `createNote`, `updateNote`) issue their request through
this wrapper. -/
def fetchData (r : FetchResponse) : Except String FetchResponse :=
  if responseOk r then .ok r else .error r.errorField

/-- The `removeNote` client function (`notes_api.ts` lines 86-89): it
calls the platform `fetch` directly, not `fetchData`, and discards the
response; since `fetch` does not raise on non-2xx statuses, `removeNote`
completes without error whatever the response. -/
def removeNote (_ : FetchResponse) : Except String Unit :=
  .ok ()

/-! ## Sample values used by concrete witnesses and counterexamples -/

/-- A concrete stand-in for the bcrypt hash function in concrete runs. -/
def sampleHash (s : String) : String := s ++ "#h"

/-- The comparison matching `sampleHash`, standing in for `bcrypt.compare`
in concrete runs. -/
def sampleCompare (raw hashed : String) : Bool := raw ++ "#h" == hashed

/-- A stored user "a" whose password hash is `sampleHash "p"`. -/
def aliceStored : StoredUser :=
  { id := 0, username := "a", email := "a@x.com", password := "p#h" }

/-- A user store holding only `aliceStored`. -/
def userDb1 : UserDb := { users := [aliceStored], nextId := 1 }

/-- The empty user store. -/
def emptyUserDb : UserDb := { users := [], nextId := 0 }

/-- The empty notes store. -/
def emptyNoteDb : NoteDb := { notes := [], nextId := 0 }

/-- A concrete well-formed signup request body. -/
def sampleSignUpBody : CreateUserBody :=
  { username := some "a", email := some "a@x.com", password := some "p" }

/-- A stored note with a previous `text` value, id `natToHex24 0`. -/
def oldNote : StoredNote :=
  { id := natToHex24 0, title := "T", text := some "old", createdAt := 0, updatedAt := 0 }

/-- A notes store holding only `oldNote`. -/
def noteDb1 : NoteDb := { notes := [oldNote], nextId := 1 }

/-- A concrete failing server response carrying `{error: "Note not found"}`. -/
def resp404 : FetchResponse := { status := 404, errorField := "Note not found" }

/-! ## Helper lemmas -/

/-- Each hexadecimal digit character is in the hex character class. -/
theorem hexDigit_isHexChar : ∀ m : Nat, m < 16 → isHexChar (hexDigit m) = true := by decide

/-- Every generated ObjectId string is well formed: `natToHex24 n` passes
`isValidObjectId`. -/
theorem isValidObjectId_natToHex24 (n : Nat) : isValidObjectId (natToHex24 n) = true := by
  have hlen : (natToHex24 n).data.length = 24 := by
    simp [natToHex24]
  have hall : (natToHex24 n).data.all isHexChar = true := by
    simp only [natToHex24, List.all_eq_true]
    intro c hc
    rcases List.mem_map.mp hc with ⟨i, _, rfl⟩
    exact hexDigit_isHexChar _ (Nat.mod_lt _ (by norm_num))
  simp [isValidObjectId, hlen, hall]


/-! ## Claim theorems -/

/-- C5: every error reaching the error middleware is rendered as follows:
a recognised HTTP-shaped error has its status and message passed through
verbatim; any other error becomes status 500 with the fixed generic
message; and in every case the response body is exactly the one-field
record `{ error := message }`. -/
theorem errorHandler_passthrough_and_generic_500 (s : Nat) (m d : String) :
    errorHandler (.http s m) = (s, ⟨m⟩)
      ∧ errorHandler (.other d) = (500, ⟨"an unknown error occurred"⟩)
      ∧ ∀ e : ThrownError, (errorHandler e).2 = ⟨(errorHandler e).2.error⟩ :=
  ⟨rfl, rfl, fun _ => rfl⟩

/-- C4: a request to the `/api/notes` pipeline whose session carries no
`userId` is answered 401 with the guard's error body, the notes store is
untouched, and the outcome does not depend on the routed handler (the
handler never runs); a request whose session carries a `userId` is passed
through to the handler on the unchanged store, with no other effect. -/
theorem notesPipeline_guard_401_and_passthrough (α : Type)
    (handler handler2 : NoteDb → Outcome α × NoteDb) (db : NoteDb) (uid : Nat) :
    (notesPipeline none handler db).1.1 = 401
      ∧ (notesPipeline none handler db).1.2 = Sum.inr ⟨"User not authenticated"⟩
      ∧ (notesPipeline none handler db).2 = db
      ∧ notesPipeline none handler db = notesPipeline none handler2 db
      ∧ notesPipeline (some uid) handler db = (render (handler db).1, (handler db).2) :=
  ⟨rfl, rfl, rfl, rfl, rfl⟩

/-- C9: a note-creation request whose title is missing or empty (falsy)
is answered 400 and the notes store is unchanged: no note is persisted. -/
theorem createNote_missing_title_400_no_persist (db : NoteDb) (now : Nat)
    (body : CreateNoteBody) (h : falsy body.title = true) :
    statusOf (createNote db now body).1 = 400
      ∧ (createNote db now body).2 = db := by
  simp [createNote, h, statusOf, render, errorHandler]

/-- C9 witness: creating with an absent title against the empty store is
answered 400 and persists nothing. -/
theorem createNote_missing_title_400_no_persist_witness :
    statusOf (createNote emptyNoteDb 0 { title := none, text := some "B" }).1 = 400
      ∧ (createNote emptyNoteDb 0 { title := none, text := some "B" }).2 = emptyNoteDb :=
  createNote_missing_title_400_no_persist emptyNoteDb 0 { title := none, text := some "B" }
    (by decide)

/-- C2 counterexample: the claim says every client API function,
including the note-deletion one, raises the parsed error message on a
failing response; but `removeNote` (which calls `fetch` directly, not
`fetchData`) completes without error on the failing response `resp404`,
raising nothing. -/
theorem removeNote_silent_on_failure_counterexample :
    responseOk resp404 = false
      ∧ removeNote resp404 = Except.ok ()
      ∧ removeNote resp404 ≠ Except.error "Note not found" := by
  refine ⟨by decide, rfl, ?_⟩
  simp [removeNote]

/-- C2 (amended): every client API function that issues its request
through `fetchData` (`getLoggedInUser`, `signup`, `login`, `logout`,
`fetchNotes`, `createNote`, `updateNote`) raises an error whose message
is the `error` field parsed from the JSON error body whenever the
response status indicates failure; the note-deletion function
`removeNote` is the exception: it calls the platform client directly and
raises nothing on failure. -/
theorem fetchData_raises_parsed_error_removeNote_excepted (r : FetchResponse)
    (h : responseOk r = false) :
    fetchData r = Except.error r.errorField ∧ removeNote r = Except.ok () := by
  simp [fetchData, h, removeNote]

/-- C2 witness: on the concrete failing response `resp404`, `fetchData`
raises the parsed message "Note not found". -/
theorem fetchData_raises_parsed_error_removeNote_excepted_witness :
    fetchData resp404 = Except.error "Note not found" :=
  (fetchData_raises_parsed_error_removeNote_excepted resp404 (by decide)).1

/-- C3: with all fields present, a login naming an existing user with a
non-matching password and a login naming a username that matches no user
produce identical results: the same thrown 401 "Invalid credentials"
error (hence the same response status and message) and the same unchanged
session, so the two runs are indistinguishable to the caller. -/
theorem login_wrong_password_indistinguishable_from_unknown_user
    (compare : String → String → Bool) (db : UserDb) (sess : Option Nat)
    (b1 b2 : LoginBody)
    (h1u : falsy b1.username = false) (h1p : falsy b1.password = false)
    (h2u : falsy b2.username = false) (h2p : falsy b2.password = false)
    (user : StoredUser)
    (hfound : db.users.find? (fun u => u.username == b1.username.getD "") = some user)
    (hmismatch : compare (b1.password.getD "") user.password = false)
    (hnone : db.users.find? (fun u => u.username == b2.username.getD "") = none) :
    login compare db sess b1 = login compare db sess b2
      ∧ login compare db sess b1 = (.error (.http 401 "Invalid credentials"), sess) := by
  simp [login, h1u, h1p, h2u, h2p, hfound, hmismatch, hnone]

/-- C3 witness: against the store holding only user "a" (hash of "p"),
logging in as "a" with the wrong password "q" gives the very same result
as logging in as the nonexistent user "nobody". -/
theorem login_wrong_password_indistinguishable_from_unknown_user_witness :
    login sampleCompare userDb1 none { username := some "a", password := some "q" }
      = login sampleCompare userDb1 none { username := some "nobody", password := some "p" } :=
  (login_wrong_password_indistinguishable_from_unknown_user sampleCompare userDb1 none
    { username := some "a", password := some "q" }
    { username := some "nobody", password := some "p" }
    (by decide) (by decide) (by decide) (by decide)
    aliceStored (by decide) (by decide) (by decide)).1

/-- C8 counterexample: the claim quantifies over every signup request
whose username duplicates a stored user's; but the request
`{username "a", email "b@x.com", password missing}` against the store
holding user "a" is answered 400 (missing user data), not 409, because
the missing-field check runs before the duplicate check. -/
theorem signUp_duplicate_missing_password_counterexample :
    (userDb1.users.find? (fun u => u.username == "a")).isSome = true
      ∧ statusOf (signUp sampleHash userDb1 none
          { username := some "a", email := some "b@x.com", password := none }).1 = 400
      ∧ statusOf (signUp sampleHash userDb1 none
          { username := some "a", email := some "b@x.com", password := none }).1 ≠ 409 := by
  refine ⟨by decide, by decide, by decide⟩

/-- C8 (amended): a signup request with all three fields present whose
username or email equals that of an already-stored user is answered 409,
the stored users are unchanged (no new user persisted) and the session is
unchanged (no session established). -/
theorem signUp_conflict_409_preserves_users
    (hash : String → String) (db : UserDb) (sess : Option Nat) (body : CreateUserBody)
    (hu : falsy body.username = false) (he : falsy body.email = false)
    (hp : falsy body.password = false)
    (hdup : (db.users.find? (fun u => u.username == body.username.getD "")).isSome = true
      ∨ (db.users.find? (fun u => u.email == body.email.getD "")).isSome = true) :
    statusOf (signUp hash db sess body).1 = 409
      ∧ (signUp hash db sess body).2.1 = db
      ∧ (signUp hash db sess body).2.2 = sess := by
  rcases hdup with h | h
  · simp [signUp, hu, he, hp, h, statusOf, render, errorHandler]
  · by_cases hn : (db.users.find? (fun u => u.username == body.username.getD "")).isSome = true
    · simp [signUp, hu, he, hp, hn, statusOf, render, errorHandler]
    · simp [signUp, hu, he, hp, hn, h, statusOf, render, errorHandler]

/-- C8 witness: a complete signup request reusing the stored username "a"
is answered 409 and leaves the store and session unchanged. -/
theorem signUp_conflict_409_preserves_users_witness :
    statusOf (signUp sampleHash userDb1 none
        { username := some "a", email := some "b@x.com", password := some "p2" }).1 = 409
      ∧ (signUp sampleHash userDb1 none
          { username := some "a", email := some "b@x.com", password := some "p2" }).2.1 = userDb1
      ∧ (signUp sampleHash userDb1 none
          { username := some "a", email := some "b@x.com", password := some "p2" }).2.2 = none :=
  signUp_conflict_409_preserves_users sampleHash userDb1 none
    { username := some "a", email := some "b@x.com", password := some "p2" }
    (by decide) (by decide) (by decide) (Or.inl (by decide))

/-- C1 counterexample: the claim says the created user is returned with
the password field excluded; but at the concrete well-formed,
non-conflicting signup request `sampleSignUpBody` against the empty
store, the 201 response body carries the password field (the hash of
"p"), so the password is not excluded: `UserModel.create` returns the
full document and `select: false` applies only to queries. -/
theorem signUp_password_in_response_counterexample :
    responsePassword (signUp sampleHash emptyUserDb none sampleSignUpBody).1 = some "p#h"
      ∧ some "p#h" ≠ (none : Option String) := by
  refine ⟨by decide, by decide⟩

/-- C1 (amended): a signup request with username, email and password all
present and conflicting with no stored user persists exactly one new user
(with the hashed password), establishes a session bound to the new user's
id, and returns 201 with the created user whose response body includes
the password field (carrying the hash), rather than excluding it. -/
theorem signUp_success_persists_and_includes_password
    (hash : String → String) (db : UserDb) (sess : Option Nat) (body : CreateUserBody)
    (hu : falsy body.username = false) (he : falsy body.email = false)
    (hp : falsy body.password = false)
    (hnu : db.users.find? (fun u => u.username == body.username.getD "") = none)
    (hne : db.users.find? (fun u => u.email == body.email.getD "") = none) :
    signUp hash db sess body =
      (Outcome.success 201
        { id := db.nextId, username := body.username.getD "",
          email := some (body.email.getD ""),
          password := some (hash (body.password.getD "")) },
       { users := db.users ++
          [{ id := db.nextId, username := body.username.getD "",
             email := body.email.getD "", password := hash (body.password.getD "") }],
         nextId := db.nextId + 1 },
       some db.nextId)
      ∧ (responsePassword (signUp hash db sess body).1).isSome = true := by
  have h1 : signUp hash db sess body =
      (Outcome.success 201
        { id := db.nextId, username := body.username.getD "",
          email := some (body.email.getD ""),
          password := some (hash (body.password.getD "")) },
       { users := db.users ++
          [{ id := db.nextId, username := body.username.getD "",
             email := body.email.getD "", password := hash (body.password.getD "") }],
         nextId := db.nextId + 1 },
       some db.nextId) := by
    simp [signUp, hu, he, hp, hnu, hne, createdUserJson]
  refine ⟨h1, ?_⟩
  rw [h1]
  rfl

/-- C1 witness: the concrete signup `sampleSignUpBody` against the empty
store persists the user, establishes the session for id 0, and the 201
body's password field is present. -/
theorem signUp_success_persists_and_includes_password_witness :
    signUp sampleHash emptyUserDb none sampleSignUpBody =
      (Outcome.success 201
        { id := 0, username := "a", email := some "a@x.com", password := some "p#h" },
       { users := [{ id := 0, username := "a", email := "a@x.com", password := "p#h" }],
         nextId := 1 },
       some 0) :=
  (signUp_success_persists_and_includes_password sampleHash emptyUserDb none sampleSignUpBody
    (by decide) (by decide) (by decide) (by decide) (by decide)).1

/-- C7: the get-one-note handler has exactly three outcomes: a malformed
id is answered 400 "invalid noteId"; a well-formed id matching no stored
note is answered 404 "Note not found"; an id matching a stored note is
answered 200 with that note — and, unconditionally, every request falls
into one of these three cases (the model's store does not fail). -/
theorem getNote_outcome_trichotomy (db : NoteDb) (s : String) :
    (isValidObjectId s = false → getNote db s = .error (.http 400 "invalid noteId"))
      ∧ (isValidObjectId s = true →
          db.notes.find? (fun n => n.id == s) = none →
          getNote db s = .error (.http 404 "Note not found"))
      ∧ (∀ n : StoredNote, isValidObjectId s = true →
          db.notes.find? (fun m => m.id == s) = some n →
          getNote db s = .success 200 n)
      ∧ (getNote db s = .error (.http 400 "invalid noteId")
          ∨ getNote db s = .error (.http 404 "Note not found")
          ∨ ∃ n : StoredNote, getNote db s = .success 200 n ∧ n ∈ db.notes) := by
  refine ⟨fun hbad => by simp [getNote, hbad], fun hok hmiss => by simp [getNote, hok, hmiss],
    fun n hok hhit => by simp [getNote, hok, hhit], ?_⟩
  by_cases hok : isValidObjectId s = true
  · cases hfind : db.notes.find? (fun m => m.id == s) with
    | none => exact Or.inr (Or.inl (by simp [getNote, hok, hfind]))
    | some n =>
      exact Or.inr (Or.inr ⟨n, by simp [getNote, hok, hfind], List.mem_of_find?_eq_some hfind⟩)
  · exact Or.inl (by simp [getNote, Bool.eq_false_iff.mpr hok])

/-- C7 witness: the spec's scenario — fetching id "not-an-id" is answered
400 "invalid noteId" (its length is neither 24 nor 12). -/
theorem getNote_outcome_trichotomy_witness :
    getNote emptyNoteDb "not-an-id" = .error (.http 400 "invalid noteId") :=
  (getNote_outcome_trichotomy emptyNoteDb "not-an-id").1 (by decide)

/-- C10: updating an existing note with a non-empty title but no `text`
field in the body overwrites the stored text with the absent value: the
handler answers 200 with the note whose `text` is cleared, and after the
update every stored note under that id has no text — the omitted field is
not left unchanged. -/
theorem updateNote_omitted_text_clears_text
    (db : NoteDb) (now : Nat) (s t : String) (note : StoredNote)
    (hvalid : isValidObjectId s = true)
    (ht : t ≠ "")
    (hfound : db.notes.find? (fun n => n.id == s) = some note) :
    (updateNote db now s { title := some t, text := none }).1 =
        .success 200 { note with title := t, text := none, updatedAt := now }
      ∧ ∀ m ∈ (updateNote db now s { title := some t, text := none }).2.notes,
          m.id = s → m.text = none := by
  have hfalsy : falsy (some t) = false := by
    simp [falsy, ht]
  constructor
  · simp [updateNote, hvalid, hfalsy, hfound]
  · intro m hm hms
    have : (updateNote db now s { title := some t, text := none }).2.notes =
        db.notes.map (fun m2 =>
          if m2.id == s then { note with title := t, text := none, updatedAt := now } else m2) := by
      simp [updateNote, hvalid, hfalsy, hfound]
    rw [this] at hm
    rcases List.mem_map.mp hm with ⟨m0, _, rfl⟩
    by_cases hid : m0.id == s
    · simp [hid]
    · simp only [hid, if_neg, Bool.false_eq_true, not_false_eq_true, ite_false] at hms ⊢
      exact absurd hms (by simpa using hid)

/-- C10 witness: updating `oldNote` (whose text is "old") with title "T2"
and no text field clears the stored text. -/
theorem updateNote_omitted_text_clears_text_witness :
    (updateNote noteDb1 5 (natToHex24 0) { title := some "T2", text := none }).1 =
      .success 200 { oldNote with title := "T2", text := none, updatedAt := 5 } :=
  (updateNote_omitted_text_clears_text noteDb1 5 (natToHex24 0) "T2" oldNote
    (by decide) (by decide) (by decide)).1

/-- C6: creating a note with title "A" and text "B" answers 201 with a
note carrying exactly that title and text and equal `createdAt` and
`updatedAt`; fetching the returned id from the resulting store yields
that same note; and a subsequent successful update (any body with a
non-empty title, at a later clock) answers 200 with a note whose
`updatedAt` is at least its `createdAt`.  The hypotheses say the fresh id
does not collide with a stored one (true of every reachable store) and
that the clock does not go backwards. -/
theorem createNote_getNote_roundtrip_timestamps
    (db : NoteDb) (now later : Nat) (updBody : CreateNoteBody)
    (hfresh : ∀ m ∈ db.notes, m.id ≠ natToHex24 db.nextId)
    (hmono : now ≤ later)
    (htitle : falsy updBody.title = false) :
    ∃ n : StoredNote,
      (createNote db now { title := some "A", text := some "B" }).1 = .success 201 n
      ∧ n.title = "A" ∧ n.text = some "B" ∧ n.createdAt = n.updatedAt
      ∧ getNote (createNote db now { title := some "A", text := some "B" }).2 n.id
          = .success 200 n
      ∧ ∃ u : StoredNote,
          (updateNote (createNote db now { title := some "A", text := some "B" }).2
              later n.id updBody).1 = .success 200 u
          ∧ u.createdAt = n.createdAt ∧ u.createdAt ≤ u.updatedAt := by
  have hA : falsy (some "A") = false := by decide
  have hc2 : (createNote db now { title := some "A", text := some "B" }).2 =
      { notes := db.notes ++
          [{ id := natToHex24 db.nextId, title := "A", text := some "B",
             createdAt := now, updatedAt := now }],
        nextId := db.nextId + 1 } := by
    simp [createNote, hA]
  have hvalid : isValidObjectId (natToHex24 db.nextId) = true :=
    isValidObjectId_natToHex24 db.nextId
  have hnone : List.find? (fun n => n.id == natToHex24 db.nextId) db.notes = none :=
    List.find?_eq_none.mpr (fun x hx => by simpa using hfresh x hx)
  refine ⟨{ id := natToHex24 db.nextId, title := "A", text := some "B",
            createdAt := now, updatedAt := now },
    by simp [createNote, hA], rfl, rfl, rfl, ?_, ?_⟩
  · rw [hc2]
    simp [getNote, hvalid, hnone]
  · refine ⟨{ id := natToHex24 db.nextId, title := updBody.title.getD "",
              text := updBody.text, createdAt := now, updatedAt := later }, ?_, rfl, hmono⟩
    rw [hc2]
    simp [updateNote, hvalid, htitle, hnone]

/-- C6 witness: against the empty store at clock 0, creating
{title "A", text "B"} and updating at clock 1 with {title "C"}
instantiates the round-trip. -/
theorem createNote_getNote_roundtrip_timestamps_witness :
    ∃ n : StoredNote,
      (createNote emptyNoteDb 0 { title := some "A", text := some "B" }).1 = .success 201 n
      ∧ n.title = "A" ∧ n.text = some "B" ∧ n.createdAt = n.updatedAt
      ∧ getNote (createNote emptyNoteDb 0 { title := some "A", text := some "B" }).2 n.id
          = .success 200 n
      ∧ ∃ u : StoredNote,
          (updateNote (createNote emptyNoteDb 0 { title := some "A", text := some "B" }).2
              1 n.id { title := some "C", text := none }).1 = .success 200 u
          ∧ u.createdAt = n.createdAt ∧ u.createdAt ≤ u.updatedAt :=
  createNote_getNote_roundtrip_timestamps emptyNoteDb 0 1 { title := some "C", text := none }
    (by simp [emptyNoteDb]) (by decide) (by decide)
